import Mathlib

/-!
Verification of the qsum checksum core.

The development shallowly embeds the recursive checksum algorithm of
`src/qsum/core/logic.py` together with the type registry of
`src/qsum/types/type_map.py`.  The pluggable digest primitive, the dependency
resolver and the byte-encoding data layer live outside the provided sources
and are treated, as the spec directs, as external collaborators: the digest is
a parameter `H : Bytes → Bytes`, the dependency resolver a parameter
`R : Dep → Bytes`, and the canonical scalar byte encoding is modelled from the
spec.  Bytes are lists of naturals; Python's lexicographic comparison of byte
strings is the lexicographic linear order on `List ℕ`.
-/

abbrev Bytes := List Nat

/-- The compact 2-byte type tags of `src/qsum/types/type_map.py` plus the types
the rest of the repository registers.  `tInt` … `tDict` mirror the twelve
entries of `TYPE_TO_PREFIX` (type_map.py lines 16-32); `tNoneType`,
`tEllipsisType`, `tSet` and `tChecksumCollection` are types the tests and
`logic.py` checksum but whose registry entries are in files missing from the
provided sources, so their entries are modelled from the spec. -/
inductive PyType where
  | tInt
  | tStr
  | tBool
  | tBytes
  | tFloat
  | tComplex
  | tBytearray
  | tType
  | tTuple
  | tList
  | tDeque
  | tDict
  | tNoneType
  | tEllipsisType
  | tSet
  | tChecksumCollection
  deriving DecidableEq, Fintype

open PyType

/-- PREFIX_BYTES of type_map.py line 12: 2 bytes are reserved for the type tag. -/
def PREFIX_BYTES : Nat := 2

/-- RESERVED_INVALID_PREFIX of type_map.py line 14: the `0xFFFF` sentinel. -/
def RESERVED_INVALID_PREFIX : Bytes := [255, 255]

/-- Modelled from the spec: `UNREGISTERED_TYPE_PREFIX` is imported by
logic.py line 14 from the type map but its definition is missing from the
provided sources; the spec reserves for it one additional prefix distinct from
every registered prefix and from the invalid sentinel. -/
def UNREGISTERED_TYPE_PREFIX : Bytes := [255, 254]

/-- The type registry, `TYPE_TO_PREFIX` of type_map.py lines 16-32.  The first
twelve entries are verbatim from the source; the last four are modelled from
the spec for the types the repository checksums whose registry rows are in
missing files (`None`, `Ellipsis`, `set`, `ChecksumCollection`), kept inside
the source's reserved groups (`\x00` scalars, `\x01` containers). -/
def TYPE_TO_PREFIX : List (PyType × Bytes) :=
  [(tInt, [0, 0]),
   (tStr, [0, 1]),
   (tBool, [0, 2]),
   (tBytes, [0, 3]),
   (tFloat, [0, 4]),
   (tComplex, [0, 5]),
   (tBytearray, [0, 6]),
   (tType, [0, 7]),
   (tTuple, [1, 0]),
   (tList, [1, 1]),
   (tDeque, [1, 2]),
   (tDict, [1, 3]),
   (tNoneType, [0, 8]),
   (tEllipsisType, [0, 9]),
   (tSet, [1, 4]),
   (tChecksumCollection, [15, 0])]

/-- SPECIAL_PREFIXES, imported by the type-map test from type_map.py where its
definition is missing from the provided sources; per the spec and the test it
collects the reserved non-type prefixes. -/
def SPECIAL_PREFIXES : List Bytes := [RESERVED_INVALID_PREFIX, UNREGISTERED_TYPE_PREFIX]

/-- PREFIX_TO_TYPE of type_map.py line 33: the inverse association of the
registry. -/
def PREFIX_TO_TYPE : List (Bytes × PyType) := TYPE_TO_PREFIX.map (fun p => (p.2, p.1))

/-- Modelled from the spec: `type_to_prefix` of the missing
`qsum/types/type_logic.py` — the registered prefix of a type, as a total
function over the closed universe of types in the registry. -/
def typeToPrefix : PyType → Bytes
  | tInt => [0, 0]
  | tStr => [0, 1]
  | tBool => [0, 2]
  | tBytes => [0, 3]
  | tFloat => [0, 4]
  | tComplex => [0, 5]
  | tBytearray => [0, 6]
  | tType => [0, 7]
  | tTuple => [1, 0]
  | tList => [1, 1]
  | tDeque => [1, 2]
  | tDict => [1, 3]
  | tNoneType => [0, 8]
  | tEllipsisType => [0, 9]
  | tSet => [1, 4]
  | tChecksumCollection => [15, 0]

/-- Modelled from the spec: `checksum_to_type` of the missing
`qsum/types/type_logic.py` — inverse lookup of the leading `PREFIX_BYTES`
bytes, failing on the reserved invalid sentinel or an unknown prefix. -/
def checksum_to_type (b : Bytes) : Option PyType :=
  if b.take PREFIX_BYTES = RESERVED_INVALID_PREFIX then none
  else PREFIX_TO_TYPE.lookup (b.take PREFIX_BYTES)

/-- Modelled from the spec: a sign-and-magnitude view of a Python float, so
that positive zero `⟨false, 0⟩` and negative zero `⟨true, 0⟩` are distinct
runtime values (distinct internal representations). -/
structure PyFloat where
  sign : Bool
  mag : Nat
  deriving DecidableEq

/-- The universe of Python values the provided sources checksum: scalars, the
ordered containers tuple and list, the unordered container set, and dicts as
lists of key/value pairs in iteration (insertion) order. -/
inductive Value where
  | vInt (n : Int)
  | vBool (b : Bool)
  | vStr (s : Bytes)
  | vBytes (b : Bytes)
  | vFloat (f : PyFloat)
  | vNone
  | vEllipsis
  | vTuple (xs : List Value)
  | vList (xs : List Value)
  | vSet (xs : List Value)
  | vDict (ps : List (Value × Value))

open Value

/-- The runtime type of a value, `type(obj)` in logic.py. -/
def typeOf : Value → PyType
  | vInt _ => tInt
  | vBool _ => tBool
  | vStr _ => tStr
  | vBytes _ => tBytes
  | vFloat _ => tFloat
  | vNone => tNoneType
  | vEllipsis => tEllipsisType
  | vTuple _ => tTuple
  | vList _ => tList
  | vSet _ => tSet
  | vDict _ => tDict

/-- Little-endian base-256 digits of a natural number (fuelled so the
definition is structural and kernel-reducible). -/
def natBytesAux : Nat → Nat → Bytes
  | 0, _ => []
  | _ + 1, 0 => []
  | fuel + 1, n + 1 => ((n + 1) % 256) :: natBytesAux fuel ((n + 1) / 256)

/-- Byte digits of a natural number. -/
def natBytes (n : Nat) : Bytes := natBytesAux n n

/-- Modelled from the spec: the canonical byte encoding of a scalar value used
by the missing `qsum/data` layer — deterministic per value, fixed-width-style
for numerics, and collapsing the distinct internal representations of positive
and negative floating-point zero to identical bytes.  Containers never reach
this encoding (the engine dispatches them beforehand). -/
def encScalar : Value → Bytes
  | vInt n => (if n < 0 then 1 else 0) :: natBytes n.natAbs
  | vBool b => [if b then 1 else 0]
  | vStr s => s
  | vBytes b => b
  | vFloat f => if f.mag = 0 then [0, 0] else (if f.sign then [1] else [0]) ++ natBytes f.mag
  | vNone => []
  | vEllipsis => []
  | _ => []

/-- Modelled from the spec: an identity encoding of a type, folded into the
digested bytes when the emitted prefix is the unregistered marker
(logic.py lines 92-94 and 122-124). -/
def typeIdentBytes (t : PyType) : Bytes := typeToPrefix t

/-- Modelled from the spec: `data_checksum` of the missing `qsum/data` layer —
run the canonical bytes through the digest `H`, folding the declared type's
identity in when one is supplied (the unregistered-prefix rule). -/
def dataChecksum (H : Bytes → Bytes) (valueBytes : Bytes) (ct : Option PyType) : Bytes :=
  match ct with
  | some t => H (typeIdentBytes t ++ valueBytes)
  | none => H valueBytes

/-- Lexicographic sort of raw byte strings, the canonicalization of
logic.py lines 80-82: `sorted` over computed checksum byte strings. -/
def sortB (l : List Bytes) : List Bytes := List.insertionSort (· ≤ ·) l

/-- Concatenation of checksum byte strings (the `bytearray().join` /
`+=` accumulation of logic.py lines 78-89). -/
def concatB (l : List Bytes) : Bytes := l.foldr (· ++ ·) []

mutual

/-- The recursion engine `_checksum` of logic.py lines 44-124, with the
dependency folding of lines 68-73 lifted into the top-level `checksum` wrapper
(recursive calls never pass `depends_on`, line 66).  `ct` is the
`checksum_type` argument whose prefix is emitted; the `obj_type` argument of
the source always equals the runtime type of the object passed, so it is the
value's own type here.  The dict branch mirrors lines 96-103: the source
recurses on `obj.items()` with `obj_type=set` and `checksum_type` the dict's
own runtime type, which is inlined here as the sorted pair-tuple checksums
(the set logic of lines 79-82 applied to `csPairs`).  The conditional on the
unregistered prefix mirrors lines 92-94 and 122-124. -/
def qsum (H : Bytes → Bytes) (obj : Value) (ct : PyType) : Bytes :=
  match obj with
  | vTuple xs =>
      typeToPrefix ct ++
        dataChecksum H (concatB (csList H xs))
          (if typeToPrefix ct = UNREGISTERED_TYPE_PREFIX then some ct else none)
  | vList xs =>
      typeToPrefix ct ++
        dataChecksum H (concatB (csList H xs))
          (if typeToPrefix ct = UNREGISTERED_TYPE_PREFIX then some ct else none)
  | vSet xs =>
      typeToPrefix ct ++
        dataChecksum H (concatB (sortB (csList H xs)))
          (if typeToPrefix ct = UNREGISTERED_TYPE_PREFIX then some ct else none)
  | vDict ps =>
      typeToPrefix tDict ++
        dataChecksum H (concatB (sortB (csPairs H ps)))
          (if typeToPrefix tDict = UNREGISTERED_TYPE_PREFIX then some tDict else none)
  | v =>
      typeToPrefix ct ++
        dataChecksum H (encScalar v)
          (if typeToPrefix ct = UNREGISTERED_TYPE_PREFIX then some ct else none)
termination_by structural obj

/-- Elementwise checksums of a container's members, each element checksummed
with its own runtime type supplying prefix and digest (logic.py lines 82 and
87-89). -/
def csList (H : Bytes → Bytes) : List Value → List Bytes
  | [] => []
  | x :: r => qsum H x (typeOf x) :: csList H r
termination_by structural l => l

/-- Checksums of a dict's key/value pairs, each pair checksummed as a
2-element ordered tuple (`_checksum(item, tuple, tuple)` unfolded through the
ordered-container branch of logic.py lines 83-94). -/
def csPairs (H : Bytes → Bytes) : List (Value × Value) → List Bytes
  | [] => []
  | (k, v) :: r =>
      (typeToPrefix tTuple ++
        dataChecksum H (concatB [qsum H k (typeOf k), qsum H v (typeOf v)])
          (if typeToPrefix tTuple = UNREGISTERED_TYPE_PREFIX then some tTuple else none)) :: csPairs H r
termination_by structural l => l

end

/-- Modelled from the spec: a dependency identifier — a package-name string or
the runtime-environment sentinel (`DependsOn.PythonEnv`); the resolving code is
missing from the provided sources. -/
inductive Dep where
  | pkg (name : Bytes)
  | pythonEnv
  deriving DecidableEq

/-- Modelled from the spec: `resolve_dependencies` of the missing
`qsum/core/dependency.py` — resolve each dependency identifier via the
injected collaborator `R` to a stable string and collect the results as an
order-independent set. -/
def resolveDependencies (R : Dep → Bytes) (deps : List Dep) : Value :=
  vSet (deps.map (fun d => vStr (R d)))

/-- The public `checksum` of logic.py lines 17-41 combined with the dependency
folding of lines 68-73: the source folds whenever `depends_on is not None`
(an empty collection included), recursing on the 2-tuple of the value and the
resolved dependency set while emitting the original runtime type's prefix. -/
def checksum (H : Bytes → Bytes) (R : Dep → Bytes) (obj : Value)
    (depends_on : Option (List Dep)) : Bytes :=
  match depends_on with
  | some deps => qsum H (vTuple [obj, resolveDependencies R deps]) (typeOf obj)
  | none => qsum H obj (typeOf obj)

/-- The immutable checksum wrapper of logic.py lines 165-252. -/
structure Checksum where
  checksum_bytes : Bytes

/-- `Checksum(obj, **kwargs)` computing a fresh checksum
(logic.py lines 187-201, `is_checksum=False`). -/
def Checksum.ofValue (H : Bytes → Bytes) (R : Dep → Bytes) (obj : Value)
    (depends_on : Option (List Dep)) : Checksum :=
  ⟨checksum H R obj depends_on⟩

/-- Hex digit characters (ASCII codes), for the `hex()` rendering. -/
def hexDigitChar (n : Nat) : Nat := if n < 10 then 48 + n else 87 + n

/-- `bytes.hex()`: two lowercase hex characters per byte. -/
def bytesHex (b : Bytes) : Bytes :=
  b.foldr (fun x acc => hexDigitChar (x / 16) :: hexDigitChar (x % 16) :: acc) []

/-- The possible operands of `Checksum.__eq__` (logic.py lines 221-231): raw
bytes, a hex string, or any other object — which either exposes a
`checksum_bytes` attribute or does not. -/
inductive EqOperand where
  | obytes (b : Bytes)
  | ostr (s : Bytes)
  | oother (checksum_bytes_attr : Option Bytes)

/-- The dynamic failure `__eq__` can raise when the fallback attribute access
fails. -/
inductive PyError where
  | attributeError
  deriving DecidableEq

/-- `Checksum.__eq__` of logic.py lines 221-231: bytes are compared raw, a
string is compared against `hex()`, and any other operand has its
`checksum_bytes` attribute dereferenced unconditionally — an operand without
the attribute raises `AttributeError`. -/
def checksumEq (c : Checksum) : EqOperand → Except PyError Bool
  | .obytes b => .ok (c.checksum_bytes == b)
  | .ostr s => .ok (bytesHex c.checksum_bytes == s)
  | .oother none => .error .attributeError
  | .oother (some cb) => .ok (c.checksum_bytes == cb)

/-- `Checksum.__add__` of logic.py lines 240-252: checksum the concatenated
raw bytes of the two operands as a `bytes` object, emitting the
`ChecksumCollection` prefix, always with `DEFAULT_HASH_ALGO` (the digest
parameter `Hdef` here). -/
def checksumAdd (Hdef : Bytes → Bytes) (a b : Checksum) : Checksum :=
  ⟨qsum Hdef (vBytes (a.checksum_bytes ++ b.checksum_bytes)) tChecksumCollection⟩

/-- The type whose prefix a call of the engine actually emits: the dict branch
of logic.py line 103 replaces the passed `checksum_type` with the mapping's own
runtime type; every other branch emits the passed type. -/
def emittedType (v : Value) (ct : PyType) : PyType :=
  match v with
  | vDict _ => tDict
  | _ => ct

/-- The byte sequence a call of the engine feeds to the digest primitive:
concatenated child checksums for ordered containers, sorted concatenated child
checksums for unordered containers and mappings, the canonical scalar bytes
otherwise. -/
def digestInput (H : Bytes → Bytes) : Value → Bytes
  | vTuple xs => concatB (csList H xs)
  | vList xs => concatB (csList H xs)
  | vSet xs => concatB (sortB (csList H xs))
  | vDict ps => concatB (sortB (csPairs H ps))
  | v => encScalar v

/-- A concrete digest used to evaluate the development at concrete inputs: it
is injective and its output is never an infix of its input. -/
def Hw : Bytes → Bytes := fun b => 255 :: b

/-- A concrete dependency resolver used to evaluate the development. -/
def Rw : Dep → Bytes := fun _ => [100]

theorem typeToPrefix_length (t : PyType) : (typeToPrefix t).length = PREFIX_BYTES := by
  cases t <;> rfl

theorem typeToPrefix_injOn : ∀ s t : PyType, typeToPrefix s = typeToPrefix t → s = t := by decide

theorem typeToPrefix_ne_unregistered : ∀ t : PyType, typeToPrefix t ≠ UNREGISTERED_TYPE_PREFIX := by
  decide

theorem typeToPrefix_ne_invalid : ∀ t : PyType, typeToPrefix t ≠ RESERVED_INVALID_PREFIX := by
  decide

theorem lookup_typeToPrefix : ∀ t : PyType, PREFIX_TO_TYPE.lookup (typeToPrefix t) = some t := by
  decide

theorem take_tag (t : PyType) (rest : Bytes) :
    (typeToPrefix t ++ rest).take PREFIX_BYTES = typeToPrefix t := by
  rw [show PREFIX_BYTES = (typeToPrefix t).length from (typeToPrefix_length t).symm]
  exact List.take_left _ _

theorem checksum_to_type_tag (t : PyType) (rest : Bytes) :
    checksum_to_type (typeToPrefix t ++ rest) = some t := by
  unfold checksum_to_type
  rw [take_tag, if_neg (typeToPrefix_ne_invalid t), lookup_typeToPrefix]

theorem emittedType_typeOf (v : Value) : emittedType v (typeOf v) = typeOf v := by
  cases v <;> rfl

theorem qsum_eq_tag_digest (H : Bytes → Bytes) (v : Value) (ct : PyType) :
    qsum H v ct = typeToPrefix (emittedType v ct) ++ H (digestInput H v) := by
  cases v <;>
    simp [qsum, emittedType, digestInput, dataChecksum, typeToPrefix_ne_unregistered]

theorem checksum_shape (H : Bytes → Bytes) (R : Dep → Bytes) (v : Value) :
    checksum H R v none = typeToPrefix (typeOf v) ++ H (digestInput H v) := by
  show qsum H v (typeOf v) = _
  rw [qsum_eq_tag_digest, emittedType_typeOf]

theorem csList_eq_map (H : Bytes → Bytes) (xs : List Value) :
    csList H xs = xs.map (fun x => qsum H x (typeOf x)) := by
  induction xs with
  | nil => rfl
  | cons x r ih => simp [csList, ih]

theorem csPairs_eq_map (H : Bytes → Bytes) (ps : List (Value × Value)) :
    csPairs H ps = ps.map (fun p => qsum H (vTuple [p.1, p.2]) tTuple) := by
  induction ps with
  | nil => rfl
  | cons p r ih =>
      cases p
      simp [csPairs, qsum, csList, ih]

theorem csList_pairTuples (H : Bytes → Bytes) (ps : List (Value × Value)) :
    csList H (ps.map (fun p => vTuple [p.1, p.2])) = csPairs H ps := by
  induction ps with
  | nil => rfl
  | cons p r ih =>
      cases p
      simp [csList, csPairs, qsum, typeOf, ih]

theorem sortB_perm_eq {l1 l2 : List Bytes} (h : l1.Perm l2) : sortB l1 = sortB l2 :=
  List.eq_of_perm_of_sorted
    (((List.perm_insertionSort _ l1).trans h).trans (List.perm_insertionSort _ l2).symm)
    (List.sorted_insertionSort _ l1) (List.sorted_insertionSort _ l2)

/-- C1: the checksum of an unordered container is invariant under
construction/iteration order: each element is checksummed independently with
its own runtime type supplying its prefix and digest, the checksum byte
strings are sorted lexicographically as raw bytes, concatenated in sorted
order, digested, and tagged with the container's declared type prefix; hence
for any two iteration orders that are permutations of the same element
multiset the checksums coincide. -/
theorem set_checksum_order_invariant (H : Bytes → Bytes) (R : Dep → Bytes)
    (xs ys : List Value) (hperm : xs.Perm ys) :
    checksum H R (vSet xs) none
        = typeToPrefix tSet ++ H (concatB (sortB (xs.map (fun x => qsum H x (typeOf x))))) ∧
    checksum H R (vSet xs) none = checksum H R (vSet ys) none := by
  have hs : sortB (csList H xs) = sortB (csList H ys) := by
    rw [csList_eq_map, csList_eq_map]
    exact sortB_perm_eq (hperm.map _)
  constructor
  · rw [checksum_shape]
    simp [digestInput, csList_eq_map, typeOf]
  · rw [checksum_shape, checksum_shape]
    simp [digestInput, typeOf, hs]

/-- C1 witness: two iteration orders of the two-element set of the strings
"a" and "b" yield the same checksum under the concrete digest `Hw`. -/
theorem set_checksum_order_invariant_wit :
    ([vStr [97], vStr [98]] : List Value).Perm [vStr [98], vStr [97]] ∧
    checksum Hw Rw (vSet [vStr [97], vStr [98]]) none
      = checksum Hw Rw (vSet [vStr [98], vStr [97]]) none :=
  ⟨List.Perm.swap _ _ _,
   (set_checksum_order_invariant Hw Rw _ _ (List.Perm.swap _ _ _)).2⟩

/-- C2: the checksum of a dict is the unordered-container checksum of its
key/value pairs — each pair checksummed as a 2-element ordered tuple, the pair
checksums sorted as raw bytes, concatenated and digested — tagged with the
dict's own type prefix; consequently building the same associations in a
different insertion (iteration) order yields an identical checksum. -/
theorem dict_checksum_unordered_pairs (H : Bytes → Bytes) (R : Dep → Bytes)
    (ps qs : List (Value × Value)) (hperm : ps.Perm qs) :
    checksum H R (vDict ps) none
        = qsum H (vSet (ps.map (fun p => vTuple [p.1, p.2]))) tDict ∧
    checksum H R (vDict ps) none
        = typeToPrefix tDict
            ++ H (concatB (sortB (ps.map (fun p => qsum H (vTuple [p.1, p.2]) tTuple)))) ∧
    checksum H R (vDict ps) none = checksum H R (vDict qs) none := by
  have hs : sortB (csPairs H ps) = sortB (csPairs H qs) := by
    rw [csPairs_eq_map, csPairs_eq_map]
    exact sortB_perm_eq (hperm.map _)
  refine ⟨?_, ?_, ?_⟩
  · rw [checksum_shape, qsum_eq_tag_digest]
    simp [digestInput, emittedType, typeOf, csList_pairTuples]
  · rw [checksum_shape]
    simp [digestInput, typeOf, csPairs_eq_map]
  · rw [checksum_shape, checksum_shape]
    simp [digestInput, typeOf, hs]

/-- C2 witness: the same two key/value associations inserted in either order
yield the same checksum under the concrete digest `Hw`. -/
theorem dict_checksum_unordered_pairs_wit :
    ([((vStr [97] : Value), (vInt 1 : Value)), (vStr [98], vInt 2)]).Perm
        [(vStr [98], vInt 2), (vStr [97], vInt 1)] ∧
    checksum Hw Rw (vDict [(vStr [97], vInt 1), (vStr [98], vInt 2)]) none
      = checksum Hw Rw (vDict [(vStr [98], vInt 2), (vStr [97], vInt 1)]) none :=
  ⟨List.Perm.swap _ _ _,
   (dict_checksum_unordered_pairs Hw Rw _ _ (List.Perm.swap _ _ _)).2.2⟩

/-- C3: under the collision-free idealization of the pluggable digest
(injective, and never producing its output as a contiguous segment of its own
input), folding a non-empty dependency collection changes the checksum while
the type recovered from the leading 2-byte prefix is still the value's runtime
type: the fold recurses on the 2-tuple of the value and the resolved
dependency set as an ordered container but emits the original declared type's
prefix. -/
theorem dependency_changes_checksum_preserves_type (H : Bytes → Bytes) (R : Dep → Bytes)
    (hInj : Function.Injective H) (hNoSelf : ∀ b p s : Bytes, b ≠ p ++ (H b ++ s))
    (x : Value) (D : List Dep) (hD : D ≠ []) :
    checksum H R x (some D) ≠ checksum H R x none ∧
    checksum_to_type (checksum H R x (some D)) = some (typeOf x) := by
  have hsome : checksum H R x (some D)
      = typeToPrefix (typeOf x)
          ++ H (qsum H x (typeOf x) ++ (qsum H (resolveDependencies R D) tSet ++ [])) := by
    show qsum H (vTuple [x, resolveDependencies R D]) (typeOf x) = _
    rw [qsum_eq_tag_digest]
    simp [emittedType, digestInput, csList, concatB, resolveDependencies, typeOf]
  constructor
  · intro heq
    rw [hsome, checksum_shape] at heq
    have h1 : qsum H x (typeOf x) ++ (qsum H (resolveDependencies R D) tSet ++ [])
        = digestInput H x := hInj (List.append_cancel_left heq)
    have h2 : qsum H x (typeOf x) = typeToPrefix (typeOf x) ++ H (digestInput H x) := by
      rw [qsum_eq_tag_digest, emittedType_typeOf]
    rw [h2, List.append_assoc] at h1
    exact hNoSelf (digestInput H x) (typeToPrefix (typeOf x))
      (qsum H (resolveDependencies R D) tSet ++ []) h1.symm
  · rw [hsome]
    exact checksum_to_type_tag _ _

theorem Hw_injective : Function.Injective Hw := by
  intro a b h
  simpa [Hw] using h

theorem Hw_no_self : ∀ b p s : Bytes, b ≠ p ++ (Hw b ++ s) := by
  intro b p s h
  have hlen := congrArg List.length h
  simp [Hw] at hlen
  omega

/-- C3 witness: at the concrete digest `Hw`, resolver `Rw`, value `123` and
the one-element dependency collection, the dependency-folded checksum differs
from the plain one while its leading prefix still recovers `int`. -/
theorem dependency_changes_checksum_preserves_type_wit :
    ([Dep.pkg [112]] ≠ ([] : List Dep)) ∧
    (checksum Hw Rw (vInt 123) (some [Dep.pkg [112]]) ≠ checksum Hw Rw (vInt 123) none ∧
     checksum_to_type (checksum Hw Rw (vInt 123) (some [Dep.pkg [112]])) = some (typeOf (vInt 123))) :=
  ⟨by decide,
   dependency_changes_checksum_preserves_type Hw Rw Hw_injective Hw_no_self
     (vInt 123) [Dep.pkg [112]] (by decide)⟩

/-- C4 counterexample: with the concrete digest `Hw` and resolver `Rw`,
passing the empty dependency collection produces bytes different from the
no-dependency checksum — the source folds whenever `depends_on is not None`,
which an empty collection satisfies. -/
theorem empty_depends_on_changes_checksum_cex :
    checksum Hw Rw (vInt 0) (some []) ≠ checksum Hw Rw (vInt 0) none := by
  decide

/-- C4 amended: dependency folding is applied only at the top-level call — the
recursion engine `qsum` takes no dependency argument at all, so recursive
calls never fold — and it is applied whenever a dependency collection is
supplied, an empty one included: `checksum x (some D)` always recurses on the
2-tuple of the value and the resolved dependency set with the original type's
prefix, while only `checksum x none` is the plain checksum. -/
theorem dependency_folding_top_level_only (H : Bytes → Bytes) (R : Dep → Bytes) (x : Value) :
    checksum H R x none = qsum H x (typeOf x) ∧
    ∀ D : List Dep,
      checksum H R x (some D) = qsum H (vTuple [x, resolveDependencies R D]) (typeOf x) :=
  ⟨rfl, fun _ => rfl⟩

/-- C5: registry invariants — every registered type maps to exactly one
prefix (the association's keys are distinct and the lookup agrees with the
prefix function), all prefixes in the table together with the special reserved
ones are pairwise distinct, the `0xFFFF` sentinel is never assigned to a type,
and the reserved unregistered prefix is distinct from every registered prefix
and from the sentinel. -/
theorem type_registry_invariants :
    (TYPE_TO_PREFIX.map Prod.fst).Nodup ∧
    (∀ t : PyType, TYPE_TO_PREFIX.lookup t = some (typeToPrefix t)) ∧
    ((TYPE_TO_PREFIX.map Prod.snd) ++ SPECIAL_PREFIXES).Nodup ∧
    RESERVED_INVALID_PREFIX ∉ TYPE_TO_PREFIX.map Prod.snd ∧
    UNREGISTERED_TYPE_PREFIX ∉ TYPE_TO_PREFIX.map Prod.snd ∧
    UNREGISTERED_TYPE_PREFIX ≠ RESERVED_INVALID_PREFIX := by
  refine ⟨by decide, by decide, by decide, by decide, by decide, by decide⟩

/-- C6: values of different registered types have different checksums
regardless of content: each checksum begins with its type's 2-byte prefix,
distinct types have distinct prefixes, so the byte sequences can never be
equal. -/
theorem different_types_different_checksums (H : Bytes → Bytes) (R : Dep → Bytes)
    (a b : Value) (hne : typeOf a ≠ typeOf b) :
    (checksum H R a none).take PREFIX_BYTES = typeToPrefix (typeOf a) ∧
    (checksum H R b none).take PREFIX_BYTES = typeToPrefix (typeOf b) ∧
    checksum H R a none ≠ checksum H R b none := by
  refine ⟨?_, ?_, ?_⟩
  · rw [checksum_shape]
    exact take_tag _ _
  · rw [checksum_shape]
    exact take_tag _ _
  · intro heq
    have h2 := congrArg (List.take PREFIX_BYTES) heq
    rw [checksum_shape, checksum_shape, take_tag, take_tag] at h2
    exact hne (typeToPrefix_injOn _ _ h2)

/-- C6 witness: the integer `1` and the boolean `True` — equal-looking
contents of different registered types — have different checksums under the
concrete digest `Hw`. -/
theorem different_types_different_checksums_wit :
    typeOf (vInt 1) ≠ typeOf (vBool true) ∧
    checksum Hw Rw (vInt 1) none ≠ checksum Hw Rw (vBool true) none :=
  ⟨by decide, (different_types_different_checksums Hw Rw _ _ (by decide)).2.2⟩

/-- C7: combining two Checksum instances with `+` produces a new Checksum
whose bytes are the reserved checksum-collection type prefix followed by the
digest of the concatenated operand bytes, and that collection tag is distinct
from the prefix of every other (real data) type in the registry. -/
theorem checksum_add_combines_with_collection_tag (Hdef : Bytes → Bytes) (a b : Checksum) :
    (checksumAdd Hdef a b).checksum_bytes
        = typeToPrefix tChecksumCollection ++ Hdef (a.checksum_bytes ++ b.checksum_bytes) ∧
    ∀ t : PyType, t ≠ tChecksumCollection →
      typeToPrefix tChecksumCollection ≠ typeToPrefix t := by
  constructor
  · simp [checksumAdd, qsum, dataChecksum, encScalar, typeToPrefix_ne_unregistered]
  · decide

/-- C8: positive and negative floating-point zero are distinct runtime values
that the canonical scalar encoding maps to identical bytes, so their checksums
are equal. -/
theorem signed_zero_equal_checksum (H : Bytes → Bytes) (R : Dep → Bytes) :
    (PyFloat.mk true 0 ≠ PyFloat.mk false 0) ∧
    encScalar (vFloat ⟨true, 0⟩) = encScalar (vFloat ⟨false, 0⟩) ∧
    checksum H R (vFloat ⟨true, 0⟩) none = checksum H R (vFloat ⟨false, 0⟩) none := by
  refine ⟨by decide, rfl, rfl⟩

/-- C9: comparing a Checksum with an operand that is neither bytes, nor a
string, nor an object exposing a `checksum_bytes` attribute raises
`AttributeError` instead of returning a boolean: the equality method handles
only the bytes and string cases and unconditionally dereferences
`other.checksum_bytes` otherwise. -/
theorem checksum_eq_raises_attribute_error (c : Checksum) :
    checksumEq c (EqOperand.oother none) = Except.error PyError.attributeError := rfl

/-- C10: the combination `a + b` always computes its digest with the default
hash algorithm `Hdef` (`DEFAULT_HASH_ALGO` in the source), regardless of which
algorithms `Ha`, `Hb` produced the operands; `__add__` exposes no way to
choose another algorithm. -/
theorem checksum_add_uses_default_hash_algo (Hdef Ha Hb : Bytes → Bytes) (R : Dep → Bytes)
    (x y : Value) :
    checksumAdd Hdef (Checksum.ofValue Ha R x none) (Checksum.ofValue Hb R y none)
        = ⟨typeToPrefix tChecksumCollection
            ++ Hdef (checksum Ha R x none ++ checksum Hb R y none)⟩ := by
  simp [checksumAdd, Checksum.ofValue, qsum, dataChecksum, encScalar,
    typeToPrefix_ne_unregistered]
